import Mathlib

/-!
Shallow embedding of the authentication/token-lifecycle subsystem of the
outlook-cli repository (src/outlook_cli/auth.py), together with theorems
settling the behavioural claims about it.

Network interactions (HTTP responses of the token endpoint, the device-code
endpoint and the profile endpoint) are modelled as explicit oracle values
passed to each operation; time is modelled as an integer clock passed
explicitly; the persisted token store is an ordered association list from
account key to record, mirroring a Python dict (insertion-ordered, key
replacement in place, append of new keys at the end).
-/

namespace OutlookCLI

/-- Profile payload returned by the Graph me-endpoint, as far as the code
inspects it: fields mail and userPrincipalName, each possibly absent or null
(both collapse to a Python None, hence a single Option layer). -/
structure UserInfo where
  mail : Option String
  userPrincipalName : Option String
deriving DecidableEq, Repr

/-- Python truthiness-based disjunction on optional strings, as in
user_info.get(..) or user_info.get(..): None and the empty string are falsy. -/
def pyOr (a b : Option String) : Option String :=
  match a with
  | none => b
  | some s => if s = "" then b else some s

/-- One Account Token Record exactly as stored by auth.py in tokens.json. -/
structure Account where
  client_id : String
  tenant : String
  access_token : String
  refresh_token : String
  expires_at : Int
  user_info : UserInfo
deriving DecidableEq, Repr

/-- Store keys: the derived account identity. The code computes it as
user_info.get(mail) or user_info.get(userPrincipalName), which can be the
Python None, so the key type is optional. -/
abbrev Email := Option String

/-- The persisted token store: an insertion-ordered mapping from account key
to record, as a Python dict serialised to JSON. -/
abbrev TokenStore := List (Email × Account)

/-- Dict membership / read: first (and by invariant only) binding of a key. -/
def lookupAcct : TokenStore → Email → Option Account
  | [], _ => none
  | (k, v) :: rest, e => if k = e then some v else lookupAcct rest e

/-- Dict write tokens.at key := a: replace in place when the key exists,
append at the end otherwise. -/
def storeSet : TokenStore → Email → Account → TokenStore
  | [], e, a => [(e, a)]
  | (k, v) :: rest, e, a =>
      if k = e then (k, a) :: rest else (k, v) :: storeSet rest e a

/-- In-place mutation of the record bound to a key, as the field assignments
tokens.at email .at field := value in the refresh path. -/
def updateAcct : TokenStore → Email → (Account → Account) → TokenStore
  | [], _, _ => []
  | (k, v) :: rest, e, f =>
      if k = e then (k, f v) :: rest else (k, v) :: updateAcct rest e f

/-- First key of the store, the implementation-defined default account
(list(tokens.keys())[0]); only consulted on a non-empty store. -/
def firstKey : TokenStore → Email
  | [] => none
  | (k, _) :: _ => k

/-- Body of a 200 response of the token endpoint for the refresh grant:
access_token and expires_in are always present; refresh_token only when the
server rotates it. -/
structure RefreshSuccess where
  access_token : String
  expires_in : Int
  refresh_token : Option String
deriving DecidableEq, Repr

/-- Outcome of the one refresh POST: a 200 with its body, or any other
status. -/
inductive RefreshResponse where
  | ok (r : RefreshSuccess)
  | err
deriving DecidableEq, Repr

/-- Result of AuthManager._refresh_token: the value returned to the caller,
the token store after the call, and whether _save_tokens was invoked. -/
structure RefreshOutcome where
  result : Option String
  store : TokenStore
  saved : Bool
deriving DecidableEq, Repr

/-- AuthManager._refresh_token (auth.py lines 177-202). The HTTP response is
the oracle resp; account_data is the record the caller read, used to build
the request. On a 200 the freshly reloaded store entry for email gets a new
access_token, a new expires_at of now + expires_in, and a new refresh_token
exactly when the body carries one; then the store is saved. On any other
status nothing is written and None is returned. -/
def _refresh_token (now : Int) (resp : RefreshResponse) (email : Email)
    (account_data : Account) (store : TokenStore) : RefreshOutcome :=
  match resp with
  | .ok r =>
      let store2 := updateAcct store email fun a =>
        { a with
            access_token := r.access_token,
            expires_at := now + r.expires_in,
            refresh_token := r.refresh_token.getD a.refresh_token }
      ⟨some r.access_token, store2, true⟩
  | .err => ⟨none, store, false⟩

/-- The distinguishable failure modes of the credential resolver, one per
distinct early-return of AuthManager.get_access_token. -/
inductive AuthError where
  | NotAuthenticated
  | AccountNotFound
  | RefreshFailed
deriving DecidableEq, Repr

/-- Result of AuthManager.get_access_token: the token or the failure, the
store after the call, and how many times _refresh_token was invoked. -/
structure ResolveOutcome where
  result : Except AuthError String
  store : TokenStore
  refreshCalls : Nat

/-- The account the resolver settles on: the given email when one is passed,
else the first key of the store (auth.py lines 159-160). -/
def resolveEmail (store : TokenStore) (emailArg : Option String) : Email :=
  match emailArg with
  | some s => some s
  | none => firstKey store

/-- AuthManager.get_access_token (auth.py lines 150-175). Empty store: not
authenticated. Unknown key: account not found. Within 300 seconds of
expires_at (or past it): one _refresh_token call, whose result is returned
when truthy (Python: if new_token), else failure. Otherwise the cached
access_token. -/
def get_access_token (now : Int) (resp : RefreshResponse) (store : TokenStore)
    (emailArg : Option String) : ResolveOutcome :=
  if store.isEmpty then ⟨.error .NotAuthenticated, store, 0⟩
  else
    let email := resolveEmail store emailArg
    match lookupAcct store email with
    | none => ⟨.error .AccountNotFound, store, 0⟩
    | some account_data =>
      if now ≥ account_data.expires_at - 300 then
        let r := _refresh_token now resp email account_data store
        match r.result with
        | some t => if t = "" then ⟨.error .RefreshFailed, r.store, 1⟩
                    else ⟨.ok t, r.store, 1⟩
        | none => ⟨.error .RefreshFailed, r.store, 1⟩
      else ⟨.ok account_data.access_token, store, 0⟩

/-- Outcome of the one GET to the profile endpoint: a 200 with a payload, or
any other status. -/
inductive ProfileResponse where
  | ok (u : UserInfo)
  | err
deriving DecidableEq, Repr

/-- AuthManager._get_user_info (auth.py lines 140-148): the payload on a 200,
an empty dict (both lookups yield None) otherwise. -/
def _get_user_info (resp : ProfileResponse) : UserInfo :=
  match resp with
  | .ok u => u
  | .err => ⟨none, none⟩

/-- Terminal states of the device authorization flow, following the state
machine the specification names for device_code_login. -/
inductive FlowResult where
  | AUTHENTICATED
  | DECLINED
  | EXPIRED
  | TIMED_OUT
  | REQUEST_FAILED
deriving DecidableEq, Repr

/-- Body of a 200 response of the token endpoint while polling. -/
structure PollSuccess where
  access_token : String
  refresh_token : String
  expires_in : Int
deriving DecidableEq, Repr

/-- One polling response: a 200 with its body, or an error body whose error
field (possibly absent) is all the code inspects. -/
inductive PollResponse where
  | success (p : PollSuccess)
  | failure (error : Option String)
deriving DecidableEq, Repr

/-- The polling loop of AuthManager.device_code_login (auth.py lines 91-138).
start is the clock at loop entry, now the current clock; each iteration first
checks now - start < expires_in, then sleeps interval seconds and issues one
poll, consuming the next scripted response. prof is the profile endpoint as a
function of the bearer token presented. Returns the terminal state, the store
and the clock at termination; none when the response script runs out while
the loop would still poll (an under-determined server). -/
def pollLoop (client_id tenant : String) (prof : String → ProfileResponse)
    (start expires_in interval : Int) (store : TokenStore) (now : Int) :
    List PollResponse → Option (FlowResult × TokenStore × Int)
  | [] =>
      if now - start < expires_in then none
      else some (.TIMED_OUT, store, now)
  | r :: rest =>
      if now - start < expires_in then
        let now2 := now + interval
        match r with
        | .success p =>
            let user_info := _get_user_info (prof p.access_token)
            let email := pyOr user_info.mail user_info.userPrincipalName
            let record : Account :=
              { client_id := client_id
                tenant := tenant
                access_token := p.access_token
                refresh_token := p.refresh_token
                expires_at := now2 + p.expires_in
                user_info := user_info }
            some (.AUTHENTICATED, storeSet store email record, now2)
        | .failure e =>
            if e = some "authorization_pending" then
              pollLoop client_id tenant prof start expires_in interval store now2 rest
            else if e = some "authorization_declined" then
              some (.DECLINED, store, now2)
            else if e = some "expired_token" then
              some (.EXPIRED, store, now2)
            else
              some (.REQUEST_FAILED, store, now2)
      else some (.TIMED_OUT, store, now)

/-- Fields of a 200 response of the device-code endpoint that the code
consumes; interval is optional and defaults to 5. -/
structure DeviceCodeData where
  device_code : String
  user_code : String
  verification_uri : Option String
  expires_in : Int
  interval : Option Int
deriving DecidableEq, Repr

/-- Outcome of the one POST to the device-code endpoint. -/
inductive DeviceCodeResponse where
  | ok (d : DeviceCodeData)
  | err
deriving DecidableEq, Repr

/-- AuthManager.device_code_login (auth.py lines 55-138): a non-200 from the
device-code endpoint fails the request immediately; otherwise the polling
loop runs from the current clock, bounded by the returned expires_in, spaced
by the returned interval (default 5). -/
def device_code_login (client_id tenant : String) (dresp : DeviceCodeResponse)
    (prof : String → ProfileResponse) (store : TokenStore) (start : Int)
    (script : List PollResponse) : Option (FlowResult × TokenStore × Int) :=
  match dresp with
  | .err => some (.REQUEST_FAILED, store, start)
  | .ok d =>
      pollLoop client_id tenant prof start d.expires_in (d.interval.getD 5)
        store start script

/-- A concrete record used to instantiate theorems with hypotheses. -/
def sampleAccount : Account :=
  { client_id := "cid"
    tenant := "consumers"
    access_token := "tokA"
    refresh_token := "refA"
    expires_at := 1000
    user_info := ⟨some "a@example.com", none⟩ }

/-- Reading a key just written finds exactly the written record. -/
theorem lookupAcct_storeSet_self (s : TokenStore) (e : Email) (a : Account) :
    lookupAcct (storeSet s e a) e = some a := by
  induction s with
  | nil => simp [storeSet, lookupAcct]
  | cons hd tl ih =>
    obtain ⟨k, v⟩ := hd
    by_cases h : k = e
    · simp [storeSet, lookupAcct, h]
    · simp [storeSet, lookupAcct, h, ih]

/-- Writing one key leaves every other key unchanged. -/
theorem lookupAcct_storeSet_other (s : TokenStore) (e e2 : Email) (a : Account)
    (h : e2 ≠ e) : lookupAcct (storeSet s e a) e2 = lookupAcct s e2 := by
  induction s with
  | nil => simp [storeSet, lookupAcct, Ne.symm h]
  | cons hd tl ih =>
    obtain ⟨k, v⟩ := hd
    by_cases hk : k = e
    · subst hk
      simp [storeSet, lookupAcct, Ne.symm h]
    · simp [storeSet, lookupAcct, hk, ih]

/-- Mutating the record at a key applies the mutation to the stored record. -/
theorem lookupAcct_updateAcct_self (s : TokenStore) (e : Email)
    (f : Account → Account) :
    lookupAcct (updateAcct s e f) e = (lookupAcct s e).map f := by
  induction s with
  | nil => simp [updateAcct, lookupAcct]
  | cons hd tl ih =>
    obtain ⟨k, v⟩ := hd
    by_cases h : k = e
    · simp [updateAcct, lookupAcct, h]
    · simp [updateAcct, lookupAcct, h, ih]

/-- Mutating the record at one key leaves every other key unchanged. -/
theorem lookupAcct_updateAcct_other (s : TokenStore) (e e2 : Email)
    (f : Account → Account) (h : e2 ≠ e) :
    lookupAcct (updateAcct s e f) e2 = lookupAcct s e2 := by
  induction s with
  | nil => simp [updateAcct]
  | cons hd tl ih =>
    obtain ⟨k, v⟩ := hd
    by_cases hk : k = e
    · subst hk
      simp [updateAcct, lookupAcct, Ne.symm h]
    · simp [updateAcct, lookupAcct, hk, ih]

/-- A store with a bound key is not empty. -/
theorem lookupAcct_ne_nil {s : TokenStore} {e : Email} {a : Account}
    (h : lookupAcct s e = some a) : s.isEmpty = false := by
  cases s with
  | nil => simp [lookupAcct] at h
  | cons hd tl => rfl

/-- Claim C2: with a record for the resolved email expiring strictly more
than 300 seconds in the future, get_access_token returns the cached
access_token, performs zero refresh invocations and leaves the store
unmodified. -/
theorem resolve_fresh_returns_cached (now : Int) (resp : RefreshResponse)
    (store : TokenStore) (emailArg : Option String) (a : Account)
    (hlook : lookupAcct store (resolveEmail store emailArg) = some a)
    (hfresh : a.expires_at - 300 > now) :
    get_access_token now resp store emailArg =
      ⟨.ok a.access_token, store, 0⟩ := by
  unfold get_access_token
  rw [lookupAcct_ne_nil hlook]
  simp only [Bool.false_eq_true, if_false]
  rw [hlook]
  simp only
  rw [if_neg (by omega)]

/-- Claim C2 witness at a concrete store and clock. -/
theorem resolve_fresh_returns_cached_witness :
    get_access_token 0 .err [(some "a@example.com", sampleAccount)]
        (some "a@example.com") =
      ⟨.ok sampleAccount.access_token, [(some "a@example.com", sampleAccount)], 0⟩ :=
  resolve_fresh_returns_cached 0 .err _ _ sampleAccount (by decide) (by decide)

/-- Claim C1: with a record for the resolved email whose expires_at is within
300 seconds of now (or past), get_access_token invokes _refresh_token exactly
once, and when that refresh fails it returns the RefreshFailed error and no
token. -/
theorem resolve_near_expiry_refreshes_once (now : Int) (resp : RefreshResponse)
    (store : TokenStore) (emailArg : Option String) (a : Account)
    (hlook : lookupAcct store (resolveEmail store emailArg) = some a)
    (hexp : now ≥ a.expires_at - 300) :
    (get_access_token now resp store emailArg).refreshCalls = 1 ∧
    (resp = .err →
      (get_access_token now resp store emailArg).result =
        .error .RefreshFailed) := by
  unfold get_access_token
  rw [lookupAcct_ne_nil hlook]
  simp only [Bool.false_eq_true, if_false]
  rw [hlook]
  simp only
  rw [if_pos hexp]
  cases resp with
  | ok r =>
    constructor
    · simp only [_refresh_token]
      split <;> rfl
    · intro h; cases h
  | err => exact ⟨rfl, fun _ => rfl⟩

/-- Claim C1 witness at a concrete store and clock inside the margin. -/
theorem resolve_near_expiry_refreshes_once_witness :
    (get_access_token 900 .err [(some "a@example.com", sampleAccount)]
        (some "a@example.com")).refreshCalls = 1 ∧
    ((RefreshResponse.err : RefreshResponse) = .err →
      (get_access_token 900 .err [(some "a@example.com", sampleAccount)]
          (some "a@example.com")).result = .error .RefreshFailed) :=
  resolve_near_expiry_refreshes_once 900 .err _ _ sampleAccount
    (by decide) (by decide)

/-- Claim C4: a failed refresh returns no token, leaves the store unchanged
and performs no save. -/
theorem refresh_failure_leaves_store_unchanged (now : Int) (email : Email)
    (account_data : Account) (store : TokenStore) :
    _refresh_token now .err email account_data store = ⟨none, store, false⟩ :=
  rfl

/-- Claim C3: a successful refresh rewrites exactly the refreshed account:
its access_token becomes the fresh one, its expires_at becomes now plus the
returned lifetime, its refresh_token is overwritten precisely when the
response carries one and kept otherwise, its remaining fields survive, the
store is saved, and every other key reads back unchanged. -/
theorem refresh_success_updates_only_account (now : Int) (r : RefreshSuccess)
    (email : Email) (account_data : Account) (store : TokenStore) (a : Account)
    (hlook : lookupAcct store email = some a) :
    lookupAcct (_refresh_token now (.ok r) email account_data store).store email =
      some { a with
               access_token := r.access_token,
               expires_at := now + r.expires_in,
               refresh_token := r.refresh_token.getD a.refresh_token } ∧
    (_refresh_token now (.ok r) email account_data store).saved = true ∧
    (∀ e2, e2 ≠ email →
      lookupAcct (_refresh_token now (.ok r) email account_data store).store e2 =
        lookupAcct store e2) := by
  refine ⟨?_, rfl, ?_⟩
  · simp only [_refresh_token]
    rw [lookupAcct_updateAcct_self, hlook]
    rfl
  · intro e2 h
    simp only [_refresh_token]
    rw [lookupAcct_updateAcct_other _ _ _ _ h]

/-- Claim C3 witness: refreshing the sample account with a rotated
refresh token, read back at its own key and at a different key. -/
theorem refresh_success_updates_only_account_witness :
    lookupAcct (_refresh_token 900 (.ok ⟨"tokB", 3600, some "refB"⟩)
        (some "a@example.com") sampleAccount
        [(some "a@example.com", sampleAccount)]).store (some "a@example.com") =
      some { sampleAccount with
               access_token := "tokB",
               expires_at := 900 + 3600,
               refresh_token := (some "refB").getD sampleAccount.refresh_token } ∧
    (_refresh_token 900 (.ok ⟨"tokB", 3600, some "refB"⟩)
        (some "a@example.com") sampleAccount
        [(some "a@example.com", sampleAccount)]).saved = true ∧
    lookupAcct (_refresh_token 900 (.ok ⟨"tokB", 3600, some "refB"⟩)
        (some "a@example.com") sampleAccount
        [(some "a@example.com", sampleAccount)]).store (some "other") =
      lookupAcct [(some "a@example.com", sampleAccount)] (some "other") := by
  obtain ⟨h1, h2, h3⟩ := refresh_success_updates_only_account 900
    ⟨"tokB", 3600, some "refB"⟩ (some "a@example.com") sampleAccount
    [(some "a@example.com", sampleAccount)] sampleAccount (by decide)
  exact ⟨h1, h2, h3 (some "other") (by decide)⟩

/-- Claim C8: an empty store resolves to NotAuthenticated; a key absent from
a non-empty store resolves to AccountNotFound; both leave the store unchanged
and return no token. -/
theorem resolve_missing_account_errors (now : Int) (resp : RefreshResponse) :
    (∀ emailArg, get_access_token now resp [] emailArg =
      ⟨.error .NotAuthenticated, [], 0⟩) ∧
    (∀ store email, store ≠ [] → lookupAcct store (some email) = none →
      get_access_token now resp store (some email) =
        ⟨.error .AccountNotFound, store, 0⟩) := by
  constructor
  · intro emailArg; rfl
  · intro store email hne hlook
    have hie : store.isEmpty = false := by
      cases store with
      | nil => exact absurd rfl hne
      | cons h t => rfl
    unfold get_access_token
    rw [hie]
    simp only [Bool.false_eq_true, if_false]
    have : resolveEmail store (some email) = some email := rfl
    rw [this, hlook]

/-- Claim C8 witness: the empty store, and a one-record store probed at an
unknown email. -/
theorem resolve_missing_account_errors_witness :
    get_access_token 0 .err [] (some "x@example.com") =
      ⟨.error .NotAuthenticated, [], 0⟩ ∧
    get_access_token 0 .err [(some "a@example.com", sampleAccount)]
        (some "x@example.com") =
      ⟨.error .AccountNotFound, [(some "a@example.com", sampleAccount)], 0⟩ :=
  ⟨(resolve_missing_account_errors 0 .err).1 (some "x@example.com"),
   (resolve_missing_account_errors 0 .err).2
     [(some "a@example.com", sampleAccount)] "x@example.com"
     (by decide) (by decide)⟩

/-- Claim C10: whenever get_access_token returns a token, that token equals
the access_token stored for the resolved account in the store as of the
moment of return. -/
theorem resolve_token_matches_store (now : Int) (resp : RefreshResponse)
    (store : TokenStore) (emailArg : Option String) (t : String)
    (st : TokenStore) (n : Nat)
    (h : get_access_token now resp store emailArg = ⟨.ok t, st, n⟩) :
    ∃ a, lookupAcct st (resolveEmail store emailArg) = some a ∧
      a.access_token = t := by
  unfold get_access_token at h
  by_cases hie : store.isEmpty
  · rw [if_pos hie] at h
    cases h
  · rw [if_neg hie] at h
    simp only at h
    cases hl : lookupAcct store (resolveEmail store emailArg) with
    | none => rw [hl] at h; cases h
    | some a =>
      rw [hl] at h
      simp only at h
      by_cases hexp : now ≥ a.expires_at - 300
      · rw [if_pos hexp] at h
        cases resp with
        | err => cases h
        | ok r =>
          simp only [_refresh_token] at h
          by_cases hz : r.access_token = ""
          · rw [if_pos hz] at h; cases h
          · rw [if_neg hz] at h
            obtain ⟨ht, hst, hn⟩ := ResolveOutcome.mk.injEq .. ▸ h
            refine ⟨{ a with
                        access_token := r.access_token,
                        expires_at := now + r.expires_in,
                        refresh_token := r.refresh_token.getD a.refresh_token },
                    ?_, ?_⟩
            · rw [← hst, lookupAcct_updateAcct_self, hl]
              rfl
            · simp only
              cases ht; rfl
      · rw [if_neg hexp] at h
        obtain ⟨ht, hst, hn⟩ := ResolveOutcome.mk.injEq .. ▸ h
        refine ⟨a, ?_, ?_⟩
        · rw [← hst, hl]
        · cases ht; rfl

/-- Claim C10 witness on the fresh-token path of the sample store. -/
theorem resolve_token_matches_store_witness :
    ∃ a, lookupAcct [(some "a@example.com", sampleAccount)]
        (resolveEmail [(some "a@example.com", sampleAccount)]
          (some "a@example.com")) = some a ∧
      a.access_token = "tokA" :=
  resolve_token_matches_store 0 .err [(some "a@example.com", sampleAccount)]
    (some "a@example.com") "tokA" [(some "a@example.com", sampleAccount)] 0 rfl

/-- Claim C5: a poll answered with HTTP success fetches the profile with the
fresh access token, derives the identity as the mail field falling back to
the principal name, persists a record under that key whose expires_at is the
clock at that moment plus the returned expires_in — fully replacing any
record under the key and preserving every other record — and terminates
AUTHENTICATED. -/
theorem device_flow_success_authenticates (client_id tenant : String)
    (d : DeviceCodeData) (prof : String → ProfileResponse) (store : TokenStore)
    (start : Int) (p : PollSuccess) (rest : List PollResponse)
    (u : UserInfo) (email : Email) (record : Account)
    (hexp : 0 < d.expires_in)
    (hu : u = _get_user_info (prof p.access_token))
    (he : email = pyOr u.mail u.userPrincipalName)
    (hrec : record = { client_id := client_id
                       tenant := tenant
                       access_token := p.access_token
                       refresh_token := p.refresh_token
                       expires_at := start + d.interval.getD 5 + p.expires_in
                       user_info := u }) :
    device_code_login client_id tenant (.ok d) prof store start
        (.success p :: rest) =
      some (.AUTHENTICATED, storeSet store email record,
            start + d.interval.getD 5) ∧
    lookupAcct (storeSet store email record) email = some record ∧
    (∀ e2, e2 ≠ email →
      lookupAcct (storeSet store email record) e2 = lookupAcct store e2) := by
  subst hu he hrec
  refine ⟨?_, lookupAcct_storeSet_self .., fun e2 h2 =>
    lookupAcct_storeSet_other _ _ _ _ h2⟩
  simp only [device_code_login, pollLoop]
  rw [if_pos (show start - start < d.expires_in by omega)]

/-- Claim C5 witness: a concrete scripted success with a profile carrying a
mail address. -/
theorem device_flow_success_authenticates_witness :
    device_code_login "cid" "consumers"
        (.ok ⟨"dc", "uc", none, 600, none⟩)
        (fun _ => .ok ⟨some "b@example.com", some "upn@example.com"⟩)
        [] 0 [.success ⟨"tokN", "refN", 3600⟩] =
      some (.AUTHENTICATED,
            storeSet [] (some "b@example.com")
              { client_id := "cid"
                tenant := "consumers"
                access_token := "tokN"
                refresh_token := "refN"
                expires_at := 0 + (Option.getD none 5 : Int) + 3600
                user_info := ⟨some "b@example.com", some "upn@example.com"⟩ },
            0 + (Option.getD none 5 : Int)) ∧
    lookupAcct (storeSet [] (some "b@example.com")
        { client_id := "cid"
          tenant := "consumers"
          access_token := "tokN"
          refresh_token := "refN"
          expires_at := 0 + (Option.getD none 5 : Int) + 3600
          user_info := ⟨some "b@example.com", some "upn@example.com"⟩ })
        (some "b@example.com") =
      some { client_id := "cid"
             tenant := "consumers"
             access_token := "tokN"
             refresh_token := "refN"
             expires_at := 0 + (Option.getD none 5 : Int) + 3600
             user_info := ⟨some "b@example.com", some "upn@example.com"⟩ } := by
  obtain ⟨h1, h2, _⟩ := device_flow_success_authenticates "cid" "consumers"
    ⟨"dc", "uc", none, 600, none⟩
    (fun _ => .ok ⟨some "b@example.com", some "upn@example.com"⟩)
    [] 0 ⟨"tokN", "refN", 3600⟩ []
    ⟨some "b@example.com", some "upn@example.com"⟩ (some "b@example.com")
    { client_id := "cid"
      tenant := "consumers"
      access_token := "tokN"
      refresh_token := "refN"
      expires_at := 0 + (Option.getD none 5 : Int) + 3600
      user_info := ⟨some "b@example.com", some "upn@example.com"⟩ }
    (by decide) rfl rfl rfl
  exact ⟨h1, h2⟩

/-- Claim C6: while polling, authorization_pending continues the loop on the
remaining script with the store untouched; authorization_declined terminates
DECLINED; expired_token terminates EXPIRED; any other error payload
terminates REQUEST_FAILED; none of the error cases writes a record. -/
theorem device_flow_error_transitions (client_id tenant : String)
    (d : DeviceCodeData) (prof : String → ProfileResponse) (store : TokenStore)
    (start : Int) (rest : List PollResponse)
    (hexp : 0 < d.expires_in) :
    (device_code_login client_id tenant (.ok d) prof store start
        (.failure (some "authorization_pending") :: rest) =
      pollLoop client_id tenant prof start d.expires_in (d.interval.getD 5)
        store (start + d.interval.getD 5) rest) ∧
    (device_code_login client_id tenant (.ok d) prof store start
        (.failure (some "authorization_declined") :: rest) =
      some (.DECLINED, store, start + d.interval.getD 5)) ∧
    (device_code_login client_id tenant (.ok d) prof store start
        (.failure (some "expired_token") :: rest) =
      some (.EXPIRED, store, start + d.interval.getD 5)) ∧
    (∀ c, c ≠ some "authorization_pending" →
      c ≠ some "authorization_declined" → c ≠ some "expired_token" →
      device_code_login client_id tenant (.ok d) prof store start
          (.failure c :: rest) =
        some (.REQUEST_FAILED, store, start + d.interval.getD 5)) := by
  have hc : start - start < d.expires_in := by omega
  refine ⟨?_, ?_, ?_, ?_⟩
  · simp only [device_code_login, pollLoop]
    rw [if_pos hc, if_pos trivial]
  · simp only [device_code_login, pollLoop]
    rw [if_pos hc, if_neg (by decide), if_pos trivial]
  · simp only [device_code_login, pollLoop]
    rw [if_pos hc, if_neg (by decide), if_neg (by decide), if_pos trivial]
  · intro c hc1 hc2 hc3
    simp only [device_code_login, pollLoop]
    rw [if_pos hc, if_neg hc1, if_neg hc2, if_neg hc3]

/-- Claim C6 witness: the four transitions at a concrete device-code grant,
the catch-all at the error code slow_down. -/
theorem device_flow_error_transitions_witness :
    (device_code_login "cid" "consumers" (.ok ⟨"dc", "uc", none, 600, some 5⟩)
        (fun _ => .err) [] 0
        [.failure (some "authorization_pending")] =
      pollLoop "cid" "consumers" (fun _ => .err) 0 600 ((some (5:Int)).getD 5)
        [] (0 + (some (5:Int)).getD 5) []) ∧
    (device_code_login "cid" "consumers" (.ok ⟨"dc", "uc", none, 600, some 5⟩)
        (fun _ => .err) [] 0
        [.failure (some "authorization_declined")] =
      some (.DECLINED, [], 0 + (some (5:Int)).getD 5)) ∧
    (device_code_login "cid" "consumers" (.ok ⟨"dc", "uc", none, 600, some 5⟩)
        (fun _ => .err) [] 0
        [.failure (some "expired_token")] =
      some (.EXPIRED, [], 0 + (some (5:Int)).getD 5)) ∧
    (device_code_login "cid" "consumers" (.ok ⟨"dc", "uc", none, 600, some 5⟩)
        (fun _ => .err) [] 0
        [.failure (some "slow_down")] =
      some (.REQUEST_FAILED, [], 0 + (some (5:Int)).getD 5)) := by
  obtain ⟨h1, h2, h3, h4⟩ := device_flow_error_transitions "cid" "consumers"
    ⟨"dc", "uc", none, 600, some 5⟩ (fun _ => .err) [] 0 [] (by decide)
  exact ⟨h1, h2, h3, h4 (some "slow_down") (by decide) (by decide) (by decide)⟩

/-- Claim C7 counterexample: expires_in 7, interval 5 and a server answering
only authorization_pending make the polling phase end at clock 10: the flow
times out, but the elapsed time 10 exceeds expires_in, refuting the claimed
bound. -/
theorem device_flow_timeout_exceeds_expires_in :
    device_code_login "cid" "consumers" (.ok ⟨"dc", "uc", none, 7, some 5⟩)
        (fun _ => .err) [] 0
        [.failure (some "authorization_pending"),
         .failure (some "authorization_pending")] =
      some (.TIMED_OUT, [], 10) ∧ ¬ ((10 : Int) - 0 ≤ 7) :=
  ⟨rfl, by decide⟩

/-- A pending-only polling run that terminates does so in TIMED_OUT with the
store untouched, and the clock at termination stays within expires_in plus
one interval of where it entered. -/
theorem pollLoop_pending_bound (client_id tenant : String)
    (prof : String → ProfileResponse) (start e i : Int) (store : TokenStore) :
    ∀ (script : List PollResponse) (now : Int),
      (∀ r ∈ script, r = PollResponse.failure (some "authorization_pending")) →
      now - start < e + i →
      ∀ fr st tEnd,
        pollLoop client_id tenant prof start e i store now script =
          some (fr, st, tEnd) →
        fr = .TIMED_OUT ∧ st = store ∧ tEnd - start < e + i := by
  intro script
  induction script with
  | nil =>
    intro now hpend hinv fr st tEnd hres
    simp only [pollLoop] at hres
    by_cases h : now - start < e
    · rw [if_pos h] at hres; cases hres
    · rw [if_neg h] at hres
      rw [Option.some_inj, Prod.mk.injEq, Prod.mk.injEq] at hres
      obtain ⟨h1, h2, h3⟩ := hres
      exact ⟨h1.symm, h2.symm, by omega⟩
  | cons r rest ih =>
    intro now hpend hinv fr st tEnd hres
    have hr : r = .failure (some "authorization_pending") :=
      hpend r (List.mem_cons_self r rest)
    subst hr
    simp only [pollLoop] at hres
    by_cases h : now - start < e
    · rw [if_pos h, if_pos trivial] at hres
      exact ih (now + i)
        (fun r2 hr2 => hpend r2 (List.mem_cons_of_mem _ hr2))
        (by omega) fr st tEnd hres
    · rw [if_neg h] at hres
      rw [Option.some_inj, Prod.mk.injEq, Prod.mk.injEq] at hres
      obtain ⟨h1, h2, h3⟩ := hres
      exact ⟨h1.symm, h2.symm, by omega⟩

/-- Claim C7 amended: a polling run in which every response is
authorization_pending and which terminates does so in TIMED_OUT with the
store untouched, and its elapsed time is strictly below expires_in plus the
polling interval; the elapsed time can exceed expires_in itself, because the
bound is only checked before each sleep-and-poll step. -/
theorem device_flow_pending_times_out (client_id tenant : String)
    (d : DeviceCodeData) (prof : String → ProfileResponse) (store : TokenStore)
    (start : Int) (script : List PollResponse) (fr : FlowResult)
    (st : TokenStore) (tEnd : Int)
    (hexp : 0 < d.expires_in)
    (hi : 0 ≤ d.interval.getD 5)
    (hpend : ∀ r ∈ script,
      r = PollResponse.failure (some "authorization_pending"))
    (hres : device_code_login client_id tenant (.ok d) prof store start script =
      some (fr, st, tEnd)) :
    fr = .TIMED_OUT ∧ st = store ∧
      tEnd - start < d.expires_in + d.interval.getD 5 := by
  exact pollLoop_pending_bound client_id tenant prof start d.expires_in
    (d.interval.getD 5) store script start hpend (by omega) fr st tEnd hres

/-- Claim C7 amended witness: the pending-only run with expires_in 7 and
interval 5 ends TIMED_OUT at clock 10, within the amended bound of 12. -/
theorem device_flow_pending_times_out_witness :
    (FlowResult.TIMED_OUT : FlowResult) = .TIMED_OUT ∧
      ([] : TokenStore) = [] ∧
      (10 : Int) - 0 <
        (⟨"dc", "uc", none, 7, some 5⟩ : DeviceCodeData).expires_in +
          (⟨"dc", "uc", none, 7, some 5⟩ : DeviceCodeData).interval.getD 5 :=
  device_flow_pending_times_out "cid" "consumers"
    ⟨"dc", "uc", none, 7, some 5⟩ (fun _ => .err) [] 0
    [.failure (some "authorization_pending"),
     .failure (some "authorization_pending")]
    .TIMED_OUT [] 10 (by decide) (by decide) (by decide) rfl

/-- Claim C9: when the token exchange succeeds but the profile lookup answers
with a non-200 (or a payload with neither mail nor userPrincipalName), the
flow still terminates AUTHENTICATED and persists the record under the None
key, so the store can hold an account whose email key is null. -/
theorem device_flow_null_email_key (client_id tenant : String)
    (d : DeviceCodeData) (store : TokenStore) (start : Int) (p : PollSuccess)
    (rest : List PollResponse) (hexp : 0 < d.expires_in) :
    device_code_login client_id tenant (.ok d) (fun _ => .err) store start
        (.success p :: rest) =
      some (.AUTHENTICATED,
            storeSet store none
              { client_id := client_id
                tenant := tenant
                access_token := p.access_token
                refresh_token := p.refresh_token
                expires_at := start + d.interval.getD 5 + p.expires_in
                user_info := ⟨none, none⟩ },
            start + d.interval.getD 5) ∧
    lookupAcct
        (storeSet store none
          { client_id := client_id
            tenant := tenant
            access_token := p.access_token
            refresh_token := p.refresh_token
            expires_at := start + d.interval.getD 5 + p.expires_in
            user_info := ⟨none, none⟩ }) none =
      some { client_id := client_id
             tenant := tenant
             access_token := p.access_token
             refresh_token := p.refresh_token
             expires_at := start + d.interval.getD 5 + p.expires_in
             user_info := ⟨none, none⟩ } := by
  refine ⟨?_, lookupAcct_storeSet_self ..⟩
  simp only [device_code_login, pollLoop]
  rw [if_pos (show start - start < d.expires_in by omega)]
  rfl

/-- Claim C9 witness: a concrete flow whose profile lookup fails stores the
record under the None key and still reports success. -/
theorem device_flow_null_email_key_witness :
    device_code_login "cid" "consumers" (.ok ⟨"dc", "uc", none, 600, some 5⟩)
        (fun _ => .err) [] 0 [.success ⟨"tokN", "refN", 3600⟩] =
      some (.AUTHENTICATED,
            storeSet [] none
              { client_id := "cid"
                tenant := "consumers"
                access_token := "tokN"
                refresh_token := "refN"
                expires_at := 0 + (some (5:Int)).getD 5 + 3600
                user_info := ⟨none, none⟩ },
            0 + (some (5:Int)).getD 5) ∧
    lookupAcct
        (storeSet [] none
          { client_id := "cid"
            tenant := "consumers"
            access_token := "tokN"
            refresh_token := "refN"
            expires_at := 0 + (some (5:Int)).getD 5 + 3600
            user_info := ⟨none, none⟩ }) none =
      some { client_id := "cid"
             tenant := "consumers"
             access_token := "tokN"
             refresh_token := "refN"
             expires_at := 0 + (some (5:Int)).getD 5 + 3600
             user_info := ⟨none, none⟩ } :=
  device_flow_null_email_key "cid" "consumers" ⟨"dc", "uc", none, 600, some 5⟩
    [] 0 ⟨"tokN", "refN", 3600⟩ [] (by decide)

end OutlookCLI
